import Mathlib

/-!
Verification of the SIP_Calculator calculation engine.

Shallow embedding of src/SIP_Calculator/app.py (class SIPCalculator and the
route handlers calculate, get_breakdown, goal_planning, comparison) and of
src/SIP_Calculator/api_utils.py (APIUtils.format_currency).

Modelling conventions:
* Python floats are modelled as exact rationals (ℚ).  Every arithmetic
  operation appearing in the source (addition, subtraction, multiplication,
  division, power with an integer exponent) is total on ℚ except true
  division by zero; the places where the Python code can actually raise
  ZeroDivisionError on in-range rationals are modelled explicitly (see
  goal_planning).  Float overflow and float rounding noise are not modelled;
  the statements of the spec carry plus-minus 0.01 tolerances precisely so
  that they are insensitive to that noise.
* The Python call round(x, 2) is modelled as round2, rounding to two decimal
  places with ties rounded up (the spec asks for half-up semantics, and every
  claim checked below is insensitive to the treatment of exact ties).
* time_period_years is an int in the Python code (int(data[timePeriod])), so
  it is embedded as ℤ; the exponent total_months is likewise an ℤ and the
  power operator is embedded as zpow.
-/

namespace SIPCalc

/-- Python `round(x, 2)`: round to two decimal places. -/
def round2 (q : ℚ) : ℚ := (⌊q * 100 + 1 / 2⌋ : ℚ) / 100

/-- The success payload returned by `SIPCalculator.calculate_sip`
(`app.py`, lines 58-67). -/
structure SipResult where
  total_invested : ℚ
  estimated_returns : ℚ
  total_value : ℚ
  monthly_investment : ℚ
  annual_return_rate : ℚ
  time_period_years : ℤ
  total_months : ℤ
deriving DecidableEq

/-- Embedding of `SIPCalculator.calculate_sip` (`app.py`, lines 24-67).

In exact-rational semantics no statement of the `try` block can raise for any
input (the `except` branch is unreachable): the division by `monthly_rate`
is guarded by the `monthly_rate == 0` test, and `(1 + monthly_rate) **
total_months` is a rational power with integer exponent.  The single Python
exception reachable from in-range rationals is `0.0 ** negative`, captured by
`sip_power_raises` below. -/
def calculate_sip (monthly_investment annual_return_rate : ℚ)
    (time_period_years : ℤ) : SipResult :=
  let monthly_rate := annual_return_rate / 12 / 100
  let total_months := time_period_years * 12
  let future_value :=
    if monthly_rate = 0 then
      monthly_investment * (total_months : ℚ)
    else
      monthly_investment * (((1 + monthly_rate) ^ total_months - 1) / monthly_rate)
        * (1 + monthly_rate)
  let total_invested := monthly_investment * (total_months : ℚ)
  let estimated_returns := future_value - total_invested
  { total_invested := round2 total_invested
    estimated_returns := round2 estimated_returns
    total_value := round2 future_value
    monthly_investment := monthly_investment
    annual_return_rate := annual_return_rate
    time_period_years := time_period_years
    total_months := total_months }

/-- The only arithmetic step of `calculate_sip` that can raise in Python on
exact rational inputs: `0.0 ** n` with `n < 0` raises `ZeroDivisionError`.
For every other input the `try` body runs to completion and the function
returns its success dictionary. -/
def sip_power_raises (annual_return_rate : ℚ) (time_period_years : ℤ) : Prop :=
  1 + annual_return_rate / 12 / 100 = 0 ∧ time_period_years * 12 < 0

/-- The success payload returned by `SIPCalculator.calculate_lumpsum`
(`app.py`, lines 94-102). -/
structure LumpsumResult where
  total_invested : ℚ
  estimated_returns : ℚ
  total_value : ℚ
  lumpsum_amount : ℚ
  annual_return_rate : ℚ
  time_period_years : ℤ
deriving DecidableEq

/-- Embedding of `SIPCalculator.calculate_lumpsum` (`app.py`, lines 75-102).  As with
`calculate_sip`, in exact-rational semantics the `try` body cannot raise
except at `0.0 ** negative`, captured by `lumpsum_power_raises` below. -/
def calculate_lumpsum (lumpsum_amount annual_return_rate : ℚ)
    (time_period_years : ℤ) : LumpsumResult :=
  let future_value := lumpsum_amount * (1 + annual_return_rate / 100) ^ time_period_years
  let estimated_returns := future_value - lumpsum_amount
  { total_invested := round2 lumpsum_amount
    estimated_returns := round2 estimated_returns
    total_value := round2 future_value
    lumpsum_amount := lumpsum_amount
    annual_return_rate := annual_return_rate
    time_period_years := time_period_years }

/-- The only arithmetic step of `calculate_lumpsum` that can raise in Python
on exact rational inputs: `0.0 ** n` with `n < 0` raises `ZeroDivisionError`,
reached exactly at rate -100 with negative years.  For every other input the
`try` body runs to completion and the function returns its success
dictionary. -/
def lumpsum_power_raises (annual_return_rate : ℚ) (time_period_years : ℤ) : Prop :=
  1 + annual_return_rate / 100 = 0 ∧ time_period_years < 0

/-- One element of the list built by `SIPCalculator.generate_yearly_breakdown`
(`app.py`, lines 134-139). -/
structure YearEntry where
  year : ℤ
  total_invested : ℚ
  estimated_returns : ℚ
  total_value : ℚ
deriving DecidableEq

/-- Embedding of `SIPCalculator.generate_yearly_breakdown` (`app.py`, lines 110-141).
The Python loop `for year in range(1, time_period_years + 1)` visits
`year = 1, ..., time_period_years` (no iterations when the bound is ≤ 0),
modelled as a map over `List.range time_period_years.toNat` with
`year = j + 1`. -/
def generate_yearly_breakdown (monthly_investment annual_return_rate : ℚ)
    (time_period_years : ℤ) : List YearEntry :=
  let monthly_rate := annual_return_rate / 12 / 100
  (List.range time_period_years.toNat).map (fun (j : ℕ) =>
    let year : ℤ := (j : ℤ) + 1
    let months : ℤ := year * 12
    let future_value :=
      if monthly_rate = 0 then
        monthly_investment * (months : ℚ)
      else
        monthly_investment * (((1 + monthly_rate) ^ months - 1) / monthly_rate)
          * (1 + monthly_rate)
    let total_invested := monthly_investment * (months : ℚ)
    let returns := future_value - total_invested
    { year := year
      total_invested := round2 total_invested
      estimated_returns := round2 returns
      total_value := round2 future_value })

/-- The success payload of the `/api/goal-planning` handler
(`app.py`, lines 269-275). -/
structure GoalResult where
  required_sip : ℚ
  target_amount : ℚ
  annual_return_rate : ℚ
  time_period_years : ℤ
deriving DecidableEq

/-- The `/api/goal-planning` handler `goal_planning` (`app.py`, lines 246-281).
Its `try` body CAN raise `ZeroDivisionError` on rational inputs: dividing the
target by `total_months = 0` in the zero-rate branch, or by a zero
`annuity factor` in the general branch (e.g. `time_period_years = 0` makes
the factor `0`).  The `except` branch, which answers with
`success: false`, is modelled as `Except.error`. -/
def goal_planning (target_amount annual_return_rate : ℚ)
    (time_period_years : ℤ) : Except String GoalResult :=
  let monthly_rate := annual_return_rate / 12 / 100
  let total_months := time_period_years * 12
  if monthly_rate = 0 then
    if (total_months : ℚ) = 0 then
      Except.error "ZeroDivisionError"
    else
      Except.ok
        { required_sip := round2 (target_amount / (total_months : ℚ))
          target_amount := target_amount
          annual_return_rate := annual_return_rate
          time_period_years := time_period_years }
  else
    let annuity_factor :=
      (((1 + monthly_rate) ^ total_months - 1) / monthly_rate) * (1 + monthly_rate)
    if annuity_factor = 0 then
      Except.error "ZeroDivisionError"
    else
      Except.ok
        { required_sip := round2 (target_amount / annuity_factor)
          target_amount := target_amount
          annual_return_rate := annual_return_rate
          time_period_years := time_period_years }

/-- The success payload of the `/api/comparison` handler
(`app.py`, lines 306-313). -/
structure ComparisonResult where
  sip : SipResult
  lumpsum : LumpsumResult
  sip_advantage : ℚ
deriving DecidableEq

/-- The `/api/comparison` handler `comparison` (`app.py`, lines 283-319).
It performs no validation of its own; in exact-rational semantics its body
cannot raise, so it is total. -/
def comparison (amount annual_return_rate : ℚ)
    (time_period_years : ℤ) : ComparisonResult :=
  let sip_result := calculate_sip amount annual_return_rate time_period_years
  let lumpsum_amount := amount * (time_period_years : ℚ) * 12
  let lumpsum_result := calculate_lumpsum lumpsum_amount annual_return_rate time_period_years
  { sip := sip_result
    lumpsum := lumpsum_result
    sip_advantage := sip_result.total_value - lumpsum_result.total_value }

/-- The `/api/breakdown` handler `get_breakdown` (`app.py`, lines 219-244).
It performs no validation; in exact-rational semantics its body cannot raise,
so the `except` branch is unreachable and it always answers with success. -/
def get_breakdown (monthly_investment annual_return_rate : ℚ)
    (time_period_years : ℤ) : Except String (List YearEntry) :=
  Except.ok (generate_yearly_breakdown monthly_investment annual_return_rate time_period_years)

instance (r : ℚ) (y : ℤ) : Decidable (sip_power_raises r y) := by
  unfold sip_power_raises
  infer_instance

instance (r : ℚ) (y : ℤ) : Decidable (lumpsum_power_raises r y) := by
  unfold lumpsum_power_raises
  infer_instance

/-- The `/api/comparison` handler viewed as the endpoint (`app.py`, lines
283-319).  On exact rationals its body can raise only inside the two inner
calculators, at `0.0 ** negative` (`sip_power_raises` at rate -1200 with
negative months, `lumpsum_power_raises` at rate -100 with negative years).
There the inner `except` returns a dictionary without the `total_value` key,
the `total_value` lookup of the handler raises `KeyError`, and the outer
`except` answers with a 500 error.  Every other input produces the success
payload. -/
def comparison_endpoint (amount annual_return_rate : ℚ)
    (time_period_years : ℤ) : Except String ComparisonResult :=
  if sip_power_raises annual_return_rate time_period_years
      ∨ lumpsum_power_raises annual_return_rate time_period_years then
    Except.error "KeyError"
  else
    Except.ok (comparison amount annual_return_rate time_period_years)

/-- The mode field of a `/api/calculate` request, after the string check of
the endpoint (mode must equal the string sip or the string lumpsum). -/
inductive CalcMode where
  | sip : CalcMode
  | lumpsum : CalcMode
deriving DecidableEq

/-- Response of the `/api/calculate` handler: either a calculation payload
(HTTP 200) or a 400 validation answer with its error message. -/
inductive CalcResponse where
  | ok_sip : SipResult → CalcResponse
  | ok_lumpsum : LumpsumResult → CalcResponse
  | bad_request : String → CalcResponse
deriving DecidableEq

/-- Holds exactly on the 400 range-validation answers. -/
def CalcResponse.isValidationError : CalcResponse → Prop
  | .bad_request _ => True
  | _ => False

instance (r : CalcResponse) : Decidable r.isValidationError := by
  cases r <;> simp [CalcResponse.isValidationError] <;> infer_instance

/-- The `/api/calculate` handler `calculate` (`app.py`, lines 149-217),
starting after the JSON field extraction: the three inline range checks, in
source order, then dispatch on `mode`. -/
def calculate (monthly_investment annual_return_rate : ℚ)
    (time_period_years : ℤ) (mode : CalcMode) : CalcResponse :=
  if monthly_investment < 500 ∨ monthly_investment > 100000 then
    .bad_request "Monthly investment must be between Rs.500 and Rs.100,000"
  else if annual_return_rate < 1 ∨ annual_return_rate > 25 then
    .bad_request "Expected return must be between 1% and 25%"
  else if time_period_years < 1 ∨ time_period_years > 50 then
    .bad_request "Time period must be between 1 and 50 years"
  else
    match mode with
    | .sip => .ok_sip (calculate_sip monthly_investment annual_return_rate time_period_years)
    | .lumpsum =>
        .ok_lumpsum (calculate_lumpsum monthly_investment annual_return_rate time_period_years)

/-- Render a rational to two decimal places, as the Python format spec `.2f`
does for the in-range magnitudes reached below (< 1000, so the thousands
separator of the plain branch never appears). -/
def fmt2 (q : ℚ) : String :=
  let c : ℤ := ⌊q * 100 + 1 / 2⌋
  let sign := if c < 0 then "-" else ""
  let n := c.natAbs
  sign ++ toString (n / 100) ++ "." ++ (if n % 100 < 10 then "0" else "") ++ toString (n % 100)

/-- Embedding of `APIUtils.format_currency` (`api_utils.py`, lines 84-94). -/
def format_currency (currency_symbol : String) (amount : ℚ) : String :=
  if amount ≥ 10000000 then currency_symbol ++ fmt2 (amount / 10000000) ++ " Cr"
  else if amount ≥ 100000 then currency_symbol ++ fmt2 (amount / 100000) ++ " L"
  else if amount ≥ 1000 then currency_symbol ++ fmt2 (amount / 1000) ++ " K"
  else currency_symbol ++ fmt2 amount

/-- Claim-side formulation of C9: pick the bucket (unit and suffix) first,
then print `symbol ++ amount/unit to two decimals ++ suffix`. -/
def currency_bucket (amount : ℚ) : ℚ × String :=
  if amount ≥ 10000000 then (10000000, " Cr")
  else if amount ≥ 100000 then (100000, " L")
  else if amount ≥ 1000 then (1000, " K")
  else (1, "")

/-- Claim-side `formatCurrency`, assembled from `currency_bucket`. -/
def format_currency_claim (currency_symbol : String) (amount : ℚ) : String :=
  currency_symbol ++ fmt2 (amount / (currency_bucket amount).1) ++ (currency_bucket amount).2

/-- Claim-side SIP future-value formula (spec section 4.2), with the number of
months as a natural number: `i = r/12/100`; `m*n` when `i = 0`, otherwise the
annuity-due closed form `m*(((1+i)^n - 1)/i)*(1+i)`. -/
def sip_fv_formula (m r : ℚ) (n : ℕ) : ℚ :=
  let i := r / 12 / 100
  if i = 0 then m * (n : ℚ) else m * (((1 + i) ^ n - 1) / i) * (1 + i)

/-- Claim-side lumpsum future-value formula (spec section 4.2):
`p*(1 + r/100)^y`. -/
def lumpsum_fv_formula (p r : ℚ) (t : ℕ) : ℚ :=
  p * (1 + r / 100) ^ t

/-- Default entry used with `List.getD` when indexing breakdown lists. -/
def default_entry : YearEntry :=
  { year := 0, total_invested := 0, estimated_returns := 0, total_value := 0 }

/-- Unfold `round2` through the mathlib `round` function. -/
theorem round2_eq_round (q : ℚ) : round2 q = ((round (q * 100) : ℤ) : ℚ) / 100 := by
  rw [round_eq]; rfl

/-- Rounding to two decimals moves a value by at most half a cent. -/
theorem abs_round2_sub (q : ℚ) : |round2 q - q| ≤ 1 / 200 := by
  rw [round2_eq_round]
  have h : |q * 100 - (round (q * 100) : ℚ)| ≤ 1 / 2 := abs_sub_round (q * 100)
  rw [abs_sub_comm] at h
  have heq : ((round (q * 100) : ℤ) : ℚ) / 100 - q
      = (((round (q * 100) : ℤ) : ℚ) - q * 100) / 100 := by ring
  rw [heq, abs_div]
  rw [show |(100 : ℚ)| = 100 by norm_num]
  linarith

/-- Rounding to two decimals is monotone. -/
theorem round2_mono {p q : ℚ} (h : p ≤ q) : round2 p ≤ round2 q := by
  unfold round2
  have hf : (⌊p * 100 + 1 / 2⌋ : ℤ) ≤ ⌊q * 100 + 1 / 2⌋ :=
    Int.floor_le_floor (by linarith)
  have hc : ((⌊p * 100 + 1 / 2⌋ : ℤ) : ℚ) ≤ ((⌊q * 100 + 1 / 2⌋ : ℤ) : ℚ) := by
    exact_mod_cast hf
  linarith

/-- Rounding to two decimals preserves nonnegativity. -/
theorem round2_nonneg {q : ℚ} (h : 0 ≤ q) : 0 ≤ round2 q := by
  have h0 : round2 0 = 0 := by unfold round2; norm_num
  have := round2_mono h
  linarith

/-- An integer whose rational cast is at most 3/2 in absolute value is at
most 1 in absolute value. -/
theorem int_abs_le_one_of_cast {z : ℤ} (h : |(z : ℚ)| ≤ 3 / 2) : |z| ≤ 1 := by
  by_contra hc
  push_neg at hc
  have h2 : (2 : ℤ) ≤ |z| := hc
  have h2q : (2 : ℚ) ≤ |(z : ℚ)| := by
    have : ((|z| : ℤ) : ℚ) = |(z : ℚ)| := by push_cast; rfl
    rw [← this]; exact_mod_cast h2
  linarith

/-- Rounding the two addends and the sum separately to two decimals disagree
by at most one cent. -/
theorem round2_add_le (a b : ℚ) : |round2 a + round2 b - round2 (a + b)| ≤ 1 / 100 := by
  have ha := abs_sub_round (a * 100)
  have hb := abs_sub_round (b * 100)
  have hab := abs_sub_round ((a + b) * 100)
  have hcast : round2 a + round2 b - round2 (a + b)
      = ((round (a * 100) + round (b * 100) - round ((a + b) * 100) : ℤ) : ℚ) / 100 := by
    rw [round2_eq_round, round2_eq_round, round2_eq_round]
    push_cast
    ring
  have h32 : |((round (a * 100) + round (b * 100) - round ((a + b) * 100) : ℤ) : ℚ)| ≤ 3 / 2 := by
    have hrw : ((round (a * 100) + round (b * 100) - round ((a + b) * 100) : ℤ) : ℚ)
        = ((round (a * 100) : ℚ) - a * 100) + ((round (b * 100) : ℚ) - b * 100)
          - ((round ((a + b) * 100) : ℚ) - (a + b) * 100) := by
      push_cast
      ring
    rw [hrw]
    have t1 : |(round (a * 100) : ℚ) - a * 100| ≤ 1 / 2 := by rw [abs_sub_comm]; exact ha
    have t2 : |(round (b * 100) : ℚ) - b * 100| ≤ 1 / 2 := by rw [abs_sub_comm]; exact hb
    have t3 : |(round ((a + b) * 100) : ℚ) - (a + b) * 100| ≤ 1 / 2 := by
      rw [abs_sub_comm]; exact hab
    calc |((round (a * 100) : ℚ) - a * 100) + ((round (b * 100) : ℚ) - b * 100)
          - ((round ((a + b) * 100) : ℚ) - (a + b) * 100)|
        ≤ |((round (a * 100) : ℚ) - a * 100) + ((round (b * 100) : ℚ) - b * 100)|
          + |(round ((a + b) * 100) : ℚ) - (a + b) * 100| := abs_sub _ _
      _ ≤ |(round (a * 100) : ℚ) - a * 100| + |(round (b * 100) : ℚ) - b * 100|
          + |(round ((a + b) * 100) : ℚ) - (a + b) * 100| := by
            have := abs_add ((round (a * 100) : ℚ) - a * 100) ((round (b * 100) : ℚ) - b * 100)
            linarith
      _ ≤ 3 / 2 := by linarith
  have hint : |round (a * 100) + round (b * 100) - round ((a + b) * 100)| ≤ 1 :=
    int_abs_le_one_of_cast h32
  have hintq : |((round (a * 100) + round (b * 100) - round ((a + b) * 100) : ℤ) : ℚ)| ≤ 1 := by
    have : ((|round (a * 100) + round (b * 100) - round ((a + b) * 100)| : ℤ) : ℚ)
        = |((round (a * 100) + round (b * 100) - round ((a + b) * 100) : ℤ) : ℚ)| := by
      push_cast; rfl
    rw [← this]; exact_mod_cast hint
  rw [hcast, abs_div]
  rw [show |(100 : ℚ)| = 100 by norm_num]
  linarith

/-- Integer powers of rationals with a nonnegative integer exponent agree
with the natural-number power at the truncation of the exponent. -/
theorem qzpow_toNat (a : ℚ) {e : ℤ} (he : 0 ≤ e) : a ^ e = a ^ e.toNat := by
  rw [← zpow_natCast a e.toNat, Int.toNat_of_nonneg he]

/-- Casting a nonnegative integer to ℚ agrees with casting its truncation. -/
theorem qcast_toNat {e : ℤ} (he : 0 ≤ e) : ((e : ℤ) : ℚ) = (e.toNat : ℚ) := by
  conv_lhs => rw [← Int.toNat_of_nonneg he]
  push_cast
  ring

/-- For a positive rate and at least one year, the annuity-due factor of the
SIP formula is at least 12 (one unit per month of the first year). -/
theorem annuity_factor_ge (r : ℚ) (y : ℤ) (hr : 0 < r) (hy : 1 ≤ y) :
    12 ≤ (((1 + r / 12 / 100) ^ (y * 12) - 1) / (r / 12 / 100)) * (1 + r / 12 / 100) := by
  have hi : 0 < r / 12 / 100 := by positivity
  have hm : (0 : ℤ) ≤ y * 12 := by omega
  rw [qzpow_toNat _ hm]
  have hn : 12 ≤ (y * 12).toNat := by omega
  have hber : 1 + ((y * 12).toNat : ℚ) * (r / 12 / 100)
      ≤ (1 + r / 12 / 100) ^ (y * 12).toNat :=
    one_add_mul_le_pow (by linarith) _
  have hnq : (12 : ℚ) ≤ ((y * 12).toNat : ℚ) := by exact_mod_cast hn
  have h12 : (12 : ℚ) * (r / 12 / 100) ≤ ((y * 12).toNat : ℚ) * (r / 12 / 100) :=
    mul_le_mul_of_nonneg_right hnq hi.le
  have hdiv : (12 : ℚ) ≤ ((1 + r / 12 / 100) ^ (y * 12).toNat - 1) / (r / 12 / 100) := by
    rw [le_div_iff₀ hi]
    linarith
  have h1i : (1 : ℚ) ≤ 1 + r / 12 / 100 := by linarith
  calc (12 : ℚ) = 12 * 1 := by ring
    _ ≤ (((1 + r / 12 / 100) ^ (y * 12).toNat - 1) / (r / 12 / 100)) * (1 + r / 12 / 100) :=
        mul_le_mul hdiv h1i (by norm_num) (by linarith)

/-- The rounded SIP future value is monotone in the number of years when the
monthly investment is nonnegative and the annual rate is nonnegative. -/
theorem calculate_sip_total_value_mono (m r : ℚ) (hm : 0 ≤ m) (hr : 0 ≤ r)
    {a b : ℤ} (ha : 0 ≤ a) (hab : a ≤ b) :
    (calculate_sip m r a).total_value ≤ (calculate_sip m r b).total_value := by
  simp only [calculate_sip]
  apply round2_mono
  by_cases hi : r / 12 / 100 = 0
  · rw [if_pos hi, if_pos hi]
    have hc : ((a * 12 : ℤ) : ℚ) ≤ ((b * 12 : ℤ) : ℚ) := by
      exact_mod_cast (by omega : a * 12 ≤ b * 12)
    exact mul_le_mul_of_nonneg_left hc hm
  · rw [if_neg hi, if_neg hi]
    have hipos : 0 < r / 12 / 100 :=
      lt_of_le_of_ne (by positivity) (Ne.symm hi)
    rw [qzpow_toNat _ (by omega : (0 : ℤ) ≤ a * 12),
      qzpow_toNat _ (by omega : (0 : ℤ) ≤ b * 12)]
    have hnat : (a * 12).toNat ≤ (b * 12).toNat := by omega
    have hpow : (1 + r / 12 / 100) ^ (a * 12).toNat ≤ (1 + r / 12 / 100) ^ (b * 12).toNat := by
      gcongr
      linarith
    have hd : ((1 + r / 12 / 100) ^ (a * 12).toNat - 1) / (r / 12 / 100)
        ≤ ((1 + r / 12 / 100) ^ (b * 12).toNat - 1) / (r / 12 / 100) := by
      gcongr
    have h1i : (0 : ℚ) ≤ 1 + r / 12 / 100 := by linarith
    exact mul_le_mul_of_nonneg_right (mul_le_mul_of_nonneg_left hd hm) h1i

/-- Claim C1: for years at least 1 the total value returned by
`calculate_sip` is the rounded annuity-due future value
`m*(((1+i)^n - 1)/i)*(1+i)` with `i = r/12/100` and `n = y*12` (and `m*n`
when `i = 0`); in the concrete scenario of the spec, `calculate_sip 5000 12
10` invests exactly 600000.00 and is worth exactly 1161695.38, within the
claimed tolerance of 0.01 around 1161695.38. -/
theorem sip_formula_and_scenario (m r : ℚ) (y : ℤ) (hy : 1 ≤ y) :
    (calculate_sip m r y).total_value = round2 (sip_fv_formula m r (y * 12).toNat) ∧
    ((y * 12).toNat : ℤ) = y * 12 ∧
    (calculate_sip m r y).total_invested = round2 (m * ((y * 12 : ℤ) : ℚ)) ∧
    (calculate_sip 5000 12 10).total_invested = 600000 ∧
    |(calculate_sip 5000 12 10).total_value - 116169538 / 100| ≤ 1 / 100 := by
  have hm : (0 : ℤ) ≤ y * 12 := by omega
  refine ⟨?_, by omega, by simp only [calculate_sip], ?_, ?_⟩
  · simp only [calculate_sip, sip_fv_formula]
    congr 1
    by_cases hi : r / 12 / 100 = 0
    · rw [if_pos hi, if_pos hi, qcast_toNat hm]
    · rw [if_neg hi, if_neg hi, qzpow_toNat _ hm]
  · norm_num [calculate_sip, round2]
  · norm_num [calculate_sip, round2]

/-- Concrete instantiation of `sip_formula_and_scenario` at the scenario of
the spec (monthly investment 5000, rate 12 percent, 10 years). -/
theorem sip_formula_and_scenario_witness :
    (calculate_sip 5000 12 10).total_value = round2 (sip_fv_formula 5000 12 ((10 : ℤ) * 12).toNat) ∧
    (((10 : ℤ) * 12).toNat : ℤ) = (10 : ℤ) * 12 ∧
    (calculate_sip 5000 12 10).total_invested = round2 (5000 * (((10 : ℤ) * 12 : ℤ) : ℚ)) ∧
    (calculate_sip 5000 12 10).total_invested = 600000 ∧
    |(calculate_sip 5000 12 10).total_value - 116169538 / 100| ≤ 1 / 100 :=
  sip_formula_and_scenario 5000 12 10 (by norm_num)

/-- Claim C5: for years at least 1, `calculate_lumpsum` returns the rounded
compound-interest value `p*(1 + r/100)^y`, invests exactly `p` and reports
the difference as returns; the formula needs no special case at rate 0
(the same expression yields `p` there); in the concrete scenario
`calculate_lumpsum 100000 12 10` is worth 310584.82 and returns 210584.82,
within the claimed tolerance of 0.01. -/
theorem lumpsum_formula_and_scenario (p r : ℚ) (y : ℤ) (hy : 1 ≤ y) :
    (calculate_lumpsum p r y).total_value = round2 (lumpsum_fv_formula p r y.toNat) ∧
    (calculate_lumpsum p r y).total_invested = round2 p ∧
    (calculate_lumpsum p r y).estimated_returns
      = round2 (lumpsum_fv_formula p r y.toNat - p) ∧
    (calculate_lumpsum p 0 y).total_value = round2 p ∧
    |(calculate_lumpsum 100000 12 10).total_value - 31058482 / 100| ≤ 1 / 100 ∧
    |(calculate_lumpsum 100000 12 10).estimated_returns - 21058482 / 100| ≤ 1 / 100 := by
  have hy0 : (0 : ℤ) ≤ y := by omega
  have hpow : (1 + r / 100 : ℚ) ^ y = (1 + r / 100) ^ y.toNat := qzpow_toNat _ hy0
  refine ⟨?_, by simp only [calculate_lumpsum], ?_, ?_, ?_, ?_⟩
  · simp only [calculate_lumpsum, lumpsum_fv_formula]
    rw [hpow]
  · simp only [calculate_lumpsum, lumpsum_fv_formula]
    rw [hpow]
  · simp only [calculate_lumpsum]
    norm_num
  · norm_num [calculate_lumpsum, round2]
  · norm_num [calculate_lumpsum, round2]

/-- Concrete instantiation of `lumpsum_formula_and_scenario` at the scenario
of the spec (principal 100000, rate 12 percent, 10 years). -/
theorem lumpsum_formula_and_scenario_witness :
    (calculate_lumpsum 100000 12 10).total_value
      = round2 (lumpsum_fv_formula 100000 12 (10 : ℤ).toNat) ∧
    (calculate_lumpsum 100000 12 10).total_invested = round2 100000 ∧
    (calculate_lumpsum 100000 12 10).estimated_returns
      = round2 (lumpsum_fv_formula 100000 12 (10 : ℤ).toNat - 100000) ∧
    (calculate_lumpsum 100000 0 10).total_value = round2 100000 ∧
    |(calculate_lumpsum 100000 12 10).total_value - 31058482 / 100| ≤ 1 / 100 ∧
    |(calculate_lumpsum 100000 12 10).estimated_returns - 21058482 / 100| ≤ 1 / 100 :=
  lumpsum_formula_and_scenario 100000 12 10 (by norm_num)

/-- Counterexample to claim C3: the input years = 0 (hence totalMonths = 0)
does not fail with a ComputationError: no operation of `calculate_sip`
raises, and the function returns its success dictionary, with all monetary
fields equal to 0.00. -/
theorem sip_zero_years_success_cex :
    ¬ sip_power_raises 12 0 ∧
    calculate_sip 5000 12 0 =
      { total_invested := 0, estimated_returns := 0, total_value := 0,
        monthly_investment := 5000, annual_return_rate := 12,
        time_period_years := 0, total_months := 0 } := by
  constructor
  · rintro ⟨-, h⟩
    omega
  · norm_num [calculate_sip, round2]

/-- Amended claim C3: the four operations have no years or rate guard at
all.  A years-equal-zero input produces a success result with zero invested
amount, zero returns and zero total value in `calculate_sip`, and a success
result with total value equal to the rounded principal in
`calculate_lumpsum`; no ComputationError exists anywhere in the code. -/
theorem years_zero_returns_success (m r : ℚ) :
    ¬ sip_power_raises r 0 ∧
    (calculate_sip m r 0).total_invested = 0 ∧
    (calculate_sip m r 0).estimated_returns = 0 ∧
    (calculate_sip m r 0).total_value = 0 ∧
    (calculate_lumpsum m r 0).total_value = round2 m := by
  have hfv : (if r / 12 / 100 = 0 then m * (((0 : ℤ) * 12 : ℤ) : ℚ)
      else m * (((1 + r / 12 / 100) ^ ((0 : ℤ) * 12) - 1) / (r / 12 / 100))
        * (1 + r / 12 / 100)) = 0 := by
    split_ifs with hi
    · norm_num
    · norm_num
  refine ⟨?_, ?_, ?_, ?_, ?_⟩
  · rintro ⟨-, h⟩
    omega
  · simp only [calculate_sip]
    norm_num [round2]
  · simp only [calculate_sip, hfv]
    norm_num [round2]
  · simp only [calculate_sip, hfv]
    norm_num [round2]
  · simp only [calculate_lumpsum]
    norm_num

/-- Counterexample to claim C4: a negative time period (outside the data
model, which demands timePeriod ≥ 1) makes the SIP total value negative
even though the amount is nonnegative and the rate exceeds -100 percent. -/
theorem sip_negative_years_negative_value_cex :
    (0 : ℚ) ≤ 1000 ∧ (-100 : ℚ) < 12 ∧ (calculate_sip 1000 12 (-1)).total_value < 0 := by
  refine ⟨by norm_num, by norm_num, ?_⟩
  norm_num [calculate_sip, round2]

/-- Invariant behind claim C4: rounding the invested amount, the returns and
the total separately can only tear the accounting identity by one cent. -/
theorem round2_sum_invariant (i v : ℚ) : |round2 i + round2 (v - i) - round2 v| ≤ 1 / 100 := by
  have h := round2_add_le i (v - i)
  rwa [show i + (v - i) = v from by ring] at h

/-- Amended claim C4: every result of `calculate_sip` and of
`calculate_lumpsum` satisfies totalInvested + estimatedReturns = totalValue
within one cent, and for a nonnegative time period (the data model only
produces timePeriod ≥ 1) the total value is nonnegative whenever the amount
is nonnegative and the rate is greater than -100 percent. -/
theorem calculation_result_invariants (m p r : ℚ) (y : ℤ) (hy : 0 ≤ y) :
    |(calculate_sip m r y).total_invested + (calculate_sip m r y).estimated_returns
      - (calculate_sip m r y).total_value| ≤ 1 / 100 ∧
    |(calculate_lumpsum p r y).total_invested + (calculate_lumpsum p r y).estimated_returns
      - (calculate_lumpsum p r y).total_value| ≤ 1 / 100 ∧
    (0 ≤ m → -100 < r → 0 ≤ (calculate_sip m r y).total_value) ∧
    (0 ≤ p → -100 < r → 0 ≤ (calculate_lumpsum p r y).total_value) := by
  refine ⟨?_, ?_, ?_, ?_⟩
  · simp only [calculate_sip]
    exact round2_sum_invariant _ _
  · simp only [calculate_lumpsum]
    exact round2_sum_invariant _ _
  · intro hm hr
    simp only [calculate_sip]
    apply round2_nonneg
    have h1i : (0 : ℚ) < 1 + r / 12 / 100 := by
      have h : r / 12 / 100 = r * (1 / 1200) := by ring
      rw [h]
      linarith
    split_ifs with hi
    · have hc : (0 : ℚ) ≤ ((y * 12 : ℤ) : ℚ) := by
        exact_mod_cast (by omega : (0 : ℤ) ≤ y * 12)
      exact mul_nonneg hm hc
    · rw [qzpow_toNat _ (by omega : (0 : ℤ) ≤ y * 12)]
      rcases lt_or_gt_of_ne hi with hneg | hpos
      · have hp1 : (1 + r / 12 / 100) ^ (y * 12).toNat ≤ 1 :=
          pow_le_one₀ (by linarith) (by linarith)
        have hdiv : 0 ≤ ((1 + r / 12 / 100) ^ (y * 12).toNat - 1) / (r / 12 / 100) :=
          div_nonneg_of_nonpos (by linarith) hneg.le
        exact mul_nonneg (mul_nonneg hm hdiv) h1i.le
      · have hp1 : (1 : ℚ) ≤ (1 + r / 12 / 100) ^ (y * 12).toNat :=
          one_le_pow₀ (by linarith)
        have hdiv : 0 ≤ ((1 + r / 12 / 100) ^ (y * 12).toNat - 1) / (r / 12 / 100) :=
          div_nonneg (by linarith) hpos.le
        exact mul_nonneg (mul_nonneg hm hdiv) h1i.le
  · intro hp hr
    simp only [calculate_lumpsum]
    apply round2_nonneg
    have h1 : (0 : ℚ) ≤ 1 + r / 100 := by linarith
    exact mul_nonneg hp (zpow_nonneg h1 y)

/-- Concrete instantiation of `calculation_result_invariants` at the
scenario inputs (amounts 5000 and 100000, rate 12 percent, 10 years). -/
theorem calculation_result_invariants_witness :
    |(calculate_sip 5000 12 10).total_invested + (calculate_sip 5000 12 10).estimated_returns
      - (calculate_sip 5000 12 10).total_value| ≤ 1 / 100 ∧
    |(calculate_lumpsum 100000 12 10).total_invested
      + (calculate_lumpsum 100000 12 10).estimated_returns
      - (calculate_lumpsum 100000 12 10).total_value| ≤ 1 / 100 ∧
    ((0 : ℚ) ≤ 5000 → (-100 : ℚ) < 12 → 0 ≤ (calculate_sip 5000 12 10).total_value) ∧
    ((0 : ℚ) ≤ 100000 → (-100 : ℚ) < 12 → 0 ≤ (calculate_lumpsum 100000 12 10).total_value) :=
  calculation_result_invariants 5000 100000 12 10 (by norm_num)

/-- Claim C2: feeding the SIP total value back into the goal-planning
(reverse SIP) endpoint recovers the monthly investment within 0.01 currency
units, for positive investments, rates in the validated range and at least
one year.  The two roundings lose at most half a cent each, and the second
one is further divided by an annuity factor of at least 12. -/
theorem sip_goal_planning_round_trip (m r : ℚ) (y : ℤ)
    (_hm : 0 < m) (hr1 : 1 ≤ r) (_hr25 : r ≤ 25) (hy : 1 ≤ y) :
    ∃ g, goal_planning ((calculate_sip m r y).total_value) r y = Except.ok g ∧
      |g.required_sip - m| ≤ 1 / 100 := by
  have hrpos : (0 : ℚ) < r := by linarith
  have hi : (0 : ℚ) < r / 12 / 100 := by positivity
  have hine : r / 12 / 100 ≠ 0 := ne_of_gt hi
  have hA12 : 12 ≤ (((1 + r / 12 / 100) ^ (y * 12) - 1) / (r / 12 / 100)) * (1 + r / 12 / 100) :=
    annuity_factor_ge r y hrpos hy
  have hApos :
      0 < (((1 + r / 12 / 100) ^ (y * 12) - 1) / (r / 12 / 100)) * (1 + r / 12 / 100) := by
    linarith
  have hAne :
      (((1 + r / 12 / 100) ^ (y * 12) - 1) / (r / 12 / 100)) * (1 + r / 12 / 100) ≠ 0 :=
    ne_of_gt hApos
  refine ⟨⟨round2 ((calculate_sip m r y).total_value /
      ((((1 + r / 12 / 100) ^ (y * 12) - 1) / (r / 12 / 100)) * (1 + r / 12 / 100))),
    (calculate_sip m r y).total_value, r, y⟩, ?_, ?_⟩
  · simp only [goal_planning]
    rw [if_neg hine, if_neg hAne]
  · have hT : (calculate_sip m r y).total_value
        = round2 (m * ((((1 + r / 12 / 100) ^ (y * 12) - 1) / (r / 12 / 100))
          * (1 + r / 12 / 100))) := by
      simp only [calculate_sip]
      rw [if_neg hine]
      congr 1
      ring
    show |round2 ((calculate_sip m r y).total_value /
        ((((1 + r / 12 / 100) ^ (y * 12) - 1) / (r / 12 / 100)) * (1 + r / 12 / 100))) - m|
      ≤ 1 / 100
    rw [hT]
    set A := (((1 + r / 12 / 100) ^ (y * 12) - 1) / (r / 12 / 100)) * (1 + r / 12 / 100)
      with hAdef
    have h1 : |round2 (m * A) - m * A| ≤ 1 / 200 := abs_round2_sub _
    have h2 : |round2 (round2 (m * A) / A) - round2 (m * A) / A| ≤ 1 / 200 := abs_round2_sub _
    have h3 : |round2 (m * A) / A - m| ≤ 1 / 2400 := by
      have heq : round2 (m * A) / A - m = (round2 (m * A) - m * A) / A := by
        field_simp
        ring
      rw [heq, abs_div, abs_of_pos hApos, div_le_iff₀ hApos]
      linarith
    have htri := abs_sub_le (round2 (round2 (m * A) / A)) (round2 (m * A) / A) m
    linarith

/-- Concrete instantiation of `sip_goal_planning_round_trip` at the scenario
of the spec (monthly investment 5000, rate 12 percent, 10 years). -/
theorem sip_goal_planning_round_trip_witness :
    ∃ g, goal_planning ((calculate_sip 5000 12 10).total_value) 12 10 = Except.ok g ∧
      |g.required_sip - 5000| ≤ 1 / 100 :=
  sip_goal_planning_round_trip 5000 12 10 (by norm_num) (by norm_num) (by norm_num)
    (by norm_num)

/-- Counterexample to claim C6: with a negative monthly investment (the data
model demands a nonnegative one) and a nonnegative rate, the yearly
breakdown total values are strictly decreasing, not non-decreasing. -/
theorem yearly_breakdown_negative_m_cex :
    (0 : ℚ) ≤ 12 ∧
    ((generate_yearly_breakdown (-1000) 12 2).getD 1 default_entry).total_value <
      ((generate_yearly_breakdown (-1000) 12 2).getD 0 default_entry).total_value := by
  refine ⟨by norm_num, ?_⟩
  norm_num [generate_yearly_breakdown, List.range_succ, round2, default_entry]

/-- Amended claim C6: for a nonnegative monthly investment (the data model
domain) and years ≥ 1, the breakdown has exactly `years` entries, the entry
at index j carries year j+1 and exactly the three monetary fields of
`calculate_sip` evaluated at j+1 years (totalMonths = (j+1)*12), and for a
nonnegative rate the total values are non-decreasing along the list. -/
theorem yearly_breakdown_spec (m r : ℚ) (y : ℤ) (hm : 0 ≤ m) (hy : 1 ≤ y) :
    ((generate_yearly_breakdown m r y).length : ℤ) = y ∧
    (∀ j, j < (generate_yearly_breakdown m r y).length →
      (generate_yearly_breakdown m r y).getD j default_entry =
        { year := (j : ℤ) + 1
          total_invested := (calculate_sip m r ((j : ℤ) + 1)).total_invested
          estimated_returns := (calculate_sip m r ((j : ℤ) + 1)).estimated_returns
          total_value := (calculate_sip m r ((j : ℤ) + 1)).total_value }) ∧
    (0 ≤ r → ∀ j k, j ≤ k → k < (generate_yearly_breakdown m r y).length →
      ((generate_yearly_breakdown m r y).getD j default_entry).total_value ≤
        ((generate_yearly_breakdown m r y).getD k default_entry).total_value) := by
  have hlen : (generate_yearly_breakdown m r y).length = y.toNat := by
    simp [generate_yearly_breakdown]
  have hentry : ∀ j, j < (generate_yearly_breakdown m r y).length →
      (generate_yearly_breakdown m r y).getD j default_entry =
        { year := (j : ℤ) + 1
          total_invested := (calculate_sip m r ((j : ℤ) + 1)).total_invested
          estimated_returns := (calculate_sip m r ((j : ℤ) + 1)).estimated_returns
          total_value := (calculate_sip m r ((j : ℤ) + 1)).total_value } := by
    intro j hj
    rw [List.getD_eq_getElem _ _ hj]
    simp only [generate_yearly_breakdown, List.getElem_map, List.getElem_range]
    rfl
  refine ⟨by rw [hlen]; omega, hentry, ?_⟩
  intro hr j k hjk hk
  have hj : j < (generate_yearly_breakdown m r y).length := lt_of_le_of_lt hjk hk
  rw [hentry j hj, hentry k hk]
  exact calculate_sip_total_value_mono m r hm hr (by omega) (by omega)

/-- Concrete instantiation of `yearly_breakdown_spec` (monthly investment
1000, rate 12 percent, 2 years). -/
theorem yearly_breakdown_spec_witness :
    ((generate_yearly_breakdown 1000 12 2).length : ℤ) = 2 ∧
    (∀ j, j < (generate_yearly_breakdown 1000 12 2).length →
      (generate_yearly_breakdown 1000 12 2).getD j default_entry =
        { year := (j : ℤ) + 1
          total_invested := (calculate_sip 1000 12 ((j : ℤ) + 1)).total_invested
          estimated_returns := (calculate_sip 1000 12 ((j : ℤ) + 1)).estimated_returns
          total_value := (calculate_sip 1000 12 ((j : ℤ) + 1)).total_value }) ∧
    ((0 : ℚ) ≤ 12 → ∀ j k, j ≤ k → k < (generate_yearly_breakdown 1000 12 2).length →
      ((generate_yearly_breakdown 1000 12 2).getD j default_entry).total_value ≤
        ((generate_yearly_breakdown 1000 12 2).getD k default_entry).total_value) :=
  yearly_breakdown_spec 1000 12 2 (by norm_num) (by norm_num)

/-- Counterexample to claim C7: at the positive constant rate 1200 percent
per year the SIP result beats the equal-contribution lumpsum, so the SIP
advantage is positive, not negative. -/
theorem comparison_positive_rate_sip_wins_cex :
    (0 : ℚ) < 1200 ∧ 0 < (comparison 5000 1200 1).sip_advantage := by
  refine ⟨by norm_num, ?_⟩
  norm_num [comparison, calculate_sip, calculate_lumpsum, round2]

/-- Amended claim C7: the comparison endpoint composes `calculate_sip` on
the amount with `calculate_lumpsum` on the total nominal contribution
`amount * years * 12` and reports sipAdvantage = sip totalValue minus
lumpsum totalValue; the advantage is negative in the representative scenario
of the spec (5000, 12 percent, 10 years), though not for every positive
constant rate. -/
theorem comparison_composition_and_scenario (a r : ℚ) (y : ℤ) :
    comparison a r y =
      { sip := calculate_sip a r y
        lumpsum := calculate_lumpsum (a * (y : ℚ) * 12) r y
        sip_advantage := (calculate_sip a r y).total_value
          - (calculate_lumpsum (a * (y : ℚ) * 12) r y).total_value } ∧
    (comparison 5000 12 10).sip_advantage < 0 := by
  refine ⟨rfl, ?_⟩
  norm_num [comparison, calculate_sip, calculate_lumpsum, round2]

/-- Claim C8: the primary calculation endpoint validates exactly the
configured inclusive bounds 500 ≤ monthlyInvestment ≤ 100000,
1 ≤ expectedReturn ≤ 25 and 1 ≤ timePeriod ≤ 50; in particular timePeriod
50 passes, timePeriod 51 is rejected, and monthlyInvestment 499 is
rejected. -/
theorem calculate_validation_bounds (m r : ℚ) (y : ℤ) (mode : CalcMode) :
    ((calculate m r y mode).isValidationError ↔
      ¬(500 ≤ m ∧ m ≤ 100000 ∧ 1 ≤ r ∧ r ≤ 25 ∧ 1 ≤ y ∧ y ≤ 50)) ∧
    ¬ (calculate 5000 12 50 CalcMode.sip).isValidationError ∧
    (calculate 5000 12 51 CalcMode.sip).isValidationError ∧
    (calculate 499 12 10 CalcMode.sip).isValidationError := by
  refine ⟨?_, ?_, ?_, ?_⟩
  · unfold calculate
    split_ifs with h1 h2 h3
    · simp only [CalcResponse.isValidationError, true_iff]
      rintro ⟨ha, hb, -, -, -, -⟩
      rcases h1 with h | h <;> linarith
    · simp only [CalcResponse.isValidationError, true_iff]
      rintro ⟨-, -, hc, hd, -, -⟩
      rcases h2 with h | h <;> linarith
    · simp only [CalcResponse.isValidationError, true_iff]
      rintro ⟨-, -, -, -, he, hf⟩
      rcases h3 with h | h <;> omega
    · push_neg at h1 h2 h3
      cases mode <;>
        simp only [CalcResponse.isValidationError, false_iff, not_not] <;>
        exact ⟨h1.1, h1.2, h2.1, h2.2, h3.1, h3.2⟩
  · norm_num [calculate, CalcResponse.isValidationError]
  · norm_num [calculate, CalcResponse.isValidationError]
  · norm_num [calculate, CalcResponse.isValidationError]

/-- Claim C9: for nonnegative amounts, `format_currency` is exactly the
bucketed formatter of the spec: divide by the unit of the first matching
bucket (1 crore, 1 lakh, 1 thousand, or none), print to two decimals with
the currency symbol in front and the bucket suffix behind. -/
theorem format_currency_bucket_spec (sym : String) (amount : ℚ) (_h : 0 ≤ amount) :
    format_currency sym amount = format_currency_claim sym amount := by
  unfold format_currency format_currency_claim currency_bucket
  split_ifs <;> simp [div_one]

/-- Concrete instantiation of `format_currency_bucket_spec` at amount
1234. -/
theorem format_currency_bucket_spec_witness :
    format_currency "Rs" 1234 = format_currency_claim "Rs" 1234 :=
  format_currency_bucket_spec "Rs" 1234 (by norm_num)

/-- Counterexample to claim C10: not every numeric input yields a success
result.  Goal planning with rate 0 and timePeriod 0 divides the target by
zero total months and answers with an error, and the comparison handler at
amount 1, rate -100, timePeriod -1 hits `0.0 ** (-1)` inside
`calculate_lumpsum`, whose failure dictionary then makes the handler raise
`KeyError` and answer with a 500 error. -/
theorem endpoint_error_inputs_cex :
    goal_planning 1000 0 0 = Except.error "ZeroDivisionError" ∧
    comparison_endpoint 1 (-100) (-1) = Except.error "KeyError" := by
  constructor
  · norm_num [goal_planning]
  · norm_num [comparison_endpoint, sip_power_raises, lumpsum_power_raises]

/-- Amended claim C10: none of the breakdown, comparison and goal-planning
operations performs any range validation.  Breakdown returns a success
result for every numeric input; comparison returns a success result for
every input outside the raising regime of its inner calculators (rate -1200
with negative months, rate -100 with negative years, where an inner
`0.0 ** negative` makes the handler answer a 500 error); goal planning
returns a success result for every target amount (unbounded and
sign-unchecked), every positive rate (also above the 25 percent bound of
the primary endpoint) and every timePeriod ≥ 1 (also above the 50 year
bound). -/
theorem endpoints_no_range_validation (m t r : ℚ) (y : ℤ) :
    get_breakdown m r y = Except.ok (generate_yearly_breakdown m r y) ∧
    (¬ sip_power_raises r y → ¬ lumpsum_power_raises r y →
      comparison_endpoint m r y = Except.ok (comparison m r y)) ∧
    (0 < r → 1 ≤ y →
      goal_planning t r y = Except.ok
        { required_sip := round2 (t /
            ((((1 + r / 12 / 100) ^ (y * 12) - 1) / (r / 12 / 100)) * (1 + r / 12 / 100)))
          target_amount := t
          annual_return_rate := r
          time_period_years := y }) := by
  refine ⟨rfl, ?_, ?_⟩
  · intro h1 h2
    simp only [comparison_endpoint]
    rw [if_neg (not_or.mpr ⟨h1, h2⟩)]
  · intro hr hy
    have hi : (0 : ℚ) < r / 12 / 100 := by positivity
    have hine : r / 12 / 100 ≠ 0 := ne_of_gt hi
    have hA12 :
        12 ≤ (((1 + r / 12 / 100) ^ (y * 12) - 1) / (r / 12 / 100)) * (1 + r / 12 / 100) :=
      annuity_factor_ge r y hr hy
    have hAne :
        (((1 + r / 12 / 100) ^ (y * 12) - 1) / (r / 12 / 100)) * (1 + r / 12 / 100) ≠ 0 := by
      intro h0
      rw [h0] at hA12
      norm_num at hA12
    simp only [goal_planning]
    rw [if_neg hine, if_neg hAne]

/-- Concrete instantiation of `endpoints_no_range_validation` at inputs
outside every validated range: negative monthly amount, negative target,
rate 100 percent and 51 years; all three endpoints answer with success. -/
theorem endpoints_no_range_validation_witness :
    get_breakdown (-5000) 100 51 = Except.ok (generate_yearly_breakdown (-5000) 100 51) ∧
    comparison_endpoint (-5000) 100 51 = Except.ok (comparison (-5000) 100 51) ∧
    goal_planning (-250000) 100 51 = Except.ok
      { required_sip := round2 ((-250000) /
          ((((1 + (100 : ℚ) / 12 / 100) ^ ((51 : ℤ) * 12) - 1) / ((100 : ℚ) / 12 / 100))
            * (1 + (100 : ℚ) / 12 / 100)))
        target_amount := -250000
        annual_return_rate := 100
        time_period_years := 51 } :=
  ⟨(endpoints_no_range_validation (-5000) (-250000) 100 51).1,
    (endpoints_no_range_validation (-5000) (-250000) 100 51).2.1
      (by norm_num [sip_power_raises]) (by norm_num [lumpsum_power_raises]),
    (endpoints_no_range_validation (-5000) (-250000) 100 51).2.2
      (by norm_num) (by norm_num)⟩

end SIPCalc
